import Mathlib

/-!
Shallow embedding of `src/connectors/quasar/quasarConnector.ts` (the
`BscConnector` class and its helper `parseSendReturn`), faithful to
JavaScript runtime semantics:

* JS values are modelled by the inductive `JsValue` (undefined, null,
  booleans, numbers as integers, strings, arrays, plain objects).
* A promise that has settled, or a synchronous call, is modelled by
  `Except JsErr JsValue`: `ok` is a resolution, `error` a rejection/throw.
* Property access on `undefined`/`null` throws a TypeError, as in JS;
  `hasOwnProperty` likewise throws on nullish receivers.
* JS truthiness (`if (!x)`) is modelled by `JsValue.truthy`.
* Each public operation of the connector returns its outcome together with
  a trace of the provider interactions it performed (`PCall`), so that
  "style N was never invoked" is expressible.
-/

inductive JsValue where
  | undefined : JsValue
  | null : JsValue
  | bool (b : Bool) : JsValue
  | num (n : Int) : JsValue
  | str (s : String) : JsValue
  | arr (elems : List JsValue) : JsValue
  | obj (fields : List (String × JsValue)) : JsValue

/-- JS truthiness: `undefined`, `null`, `false`, `0`, `""` are falsy;
every array and object (even empty) is truthy. -/
def JsValue.truthy : JsValue → Bool
  | .undefined => false
  | .null => false
  | .bool b => b
  | .num n => n != 0
  | .str s => s ≠ ""
  | .arr _ => true
  | .obj _ => true

/-- Interpret a string as a canonical array index (all digits, nonempty). -/
def asArrayIndex (s : String) : Option Nat :=
  match s.toList with
  | [] => none
  | cs => if cs.all Char.isDigit
      then some (cs.foldl (fun n c => n * 10 + (c.toNat - 48)) 0)
      else none

/-- `hasOwnProperty` on a non-nullish receiver: objects own their listed
fields; arrays own their index keys and `length`; strings own their index
keys and `length`; other primitives own nothing. -/
def JsValue.hasOwn : JsValue → String → Bool
  | .obj fields, k => fields.any (fun f => f.1 == k)
  | .arr elems, k =>
      k == "length" || (match asArrayIndex k with
        | some i => i < elems.length
        | none => false)
  | .str s, k =>
      k == "length" || (match asArrayIndex k with
        | some i => i < s.length
        | none => false)
  | _, _ => false

/-- Own-property read on a non-nullish receiver (missing property gives
`undefined`). Objects use the first matching field; arrays and strings
expose numeric indices and `length`. -/
def JsValue.getOwn : JsValue → String → JsValue
  | .obj fields, k => ((fields.find? (fun f => f.1 == k)).map Prod.snd).getD .undefined
  | .arr elems, k =>
      if k == "length" then .num elems.length
      else match asArrayIndex k with
        | some i => elems.getD i .undefined
        | none => .undefined
  | .str s, k =>
      if k == "length" then .num s.length
      else match asArrayIndex k with
        | some i =>
          match s.toList.get? i with
          | some c => .str (String.mk [c])
          | none => .undefined
        | none => .undefined
  | _, _ => .undefined

/-- Errors that can cross the boundary of a connector operation. -/
inductive JsErr where
  | typeError (msg : String) : JsErr
  | thrown (v : JsValue) : JsErr
  | noBscProvider : JsErr
  | userRejected : JsErr

/-- Property access `v[k]` / `v.k` with JS semantics: throws a TypeError
on a nullish receiver, else reads the own property (prototype members are
not modelled; absent properties give `undefined`). -/
def JsValue.getProp : JsValue → String → Except JsErr JsValue
  | .undefined, k => .error (.typeError ("Cannot read properties of undefined (reading " ++ k ++ ")"))
  | .null, k => .error (.typeError ("Cannot read properties of null (reading " ++ k ++ ")"))
  | v, k => .ok (v.getOwn k)

/-- `parseSendReturn` (quasarConnector.ts lines 7-9):
`sendReturn.hasOwnProperty('result') ? sendReturn.result : sendReturn`.
Calling `hasOwnProperty` on a nullish receiver throws. -/
def parseSendReturn : JsValue → Except JsErr JsValue
  | .undefined => .error (.typeError "Cannot read properties of undefined (reading hasOwnProperty)")
  | .null => .error (.typeError "Cannot read properties of null (reading hasOwnProperty)")
  | v => if v.hasOwn "result" then .ok (v.getOwn "result") else .ok v

/-- One provider interaction, recorded in an operation's trace:
`sendA m` is the async single-argument send (`send('m')`), `sendO m` the
synchronous object-style send (`send({method: 'm'})`), `enable` the legacy
`enable()` call, `subscribe`/`unsubscribe` the `on`/`removeListener`
registrations, `readStatic n` a read of the static provider property `n`,
and `setStatic n` a write to it. -/
inductive PCall where
  | sendA (method : String) : PCall
  | sendO (method : String) : PCall
  | enable : PCall
  | subscribe (event : String) : PCall
  | unsubscribe (event : String) : PCall
  | readStatic (name : String) : PCall
  | setStatic (name : String) : PCall
deriving Repr, DecidableEq

/-- The injected provider object (`window.QuasarChain` when present).
`sendAsync m` is the settled outcome of the promise returned by
`send('m')` (a missing or throwing `send` is an `error`); `sendSync m`
the outcome of the synchronous `send({method: 'm'})`; `enable` the
settled outcome of `enable()` (a missing `enable` is a thrown TypeError,
hence an `error`). The remaining fields are the capability flags and
static properties the connector consults. -/
structure Provider where
  sendAsync : String → Except JsErr JsValue
  sendSync : String → Except JsErr JsValue
  enable : Except JsErr JsValue
  hasOn : Bool
  hasRemoveListener : Bool
  isMetaMask : Bool
  isDapper : Bool
  chainId : JsValue
  netVersion : JsValue
  networkVersion : JsValue
  underscoreChainId : JsValue
  cachedResults : JsValue

/-- The global slot `window.QuasarChain`: absent (`none`) or a provider. -/
structure Window where
  quasarChain : Option Provider

/-- `await promise.then(parseSendReturn)`: propagate a rejection, else
normalize the resolved value (whose failure rejects the derived promise). -/
def thenParse (r : Except JsErr JsValue) : Except JsErr JsValue :=
  match r with
  | .error e => .error e
  | .ok v => parseSendReturn v

/-- `await promise.then(r => parseSendReturn(r)[0])`: propagate a
rejection, else normalize and index the first element. -/
def thenParseIdx0 (r : Except JsErr JsValue) : Except JsErr JsValue :=
  match thenParse r with
  | .error e => .error e
  | .ok v => v.getProp "0"

/-- A `try { x = await ... } catch { warning(...) }` attempt: any failure
is swallowed and leaves `x` undefined. -/
def softValue (r : Except JsErr JsValue) : JsValue :=
  match r with
  | .ok v => v
  | .error _ => .undefined

/-- `(error as any).code` read in `activate`'s catch clause: the thrown
value's `code` property (a nullish thrown value makes this read itself
throw); error objects of the connector's own classes carry no `code`. -/
def errCode : JsErr → Except JsErr JsValue
  | .thrown v => v.getProp "code"
  | .typeError _ => .ok .undefined
  | .noBscProvider => .ok .undefined
  | .userRejected => .ok .undefined

/-- A framework update payload `{chainId?, account?, provider?}`
(`providerIncluded` records whether the `provider` field was included). -/
structure UpdatePayload where
  chainId : Option JsValue
  account : Option JsValue
  providerIncluded : Bool

/-- A notification emitted to the framework: `emitUpdate` or
`emitDeactivate`. -/
inductive Emission where
  | update (payload : UpdatePayload) : Emission
  | deactivate : Emission

/-- `handleChainChanged` (lines 37-39): emits
`{chainId, provider: window.QuasarChain}`. -/
def handleChainChanged (chainId : JsValue) : List Emission :=
  [.update { chainId := some chainId, account := none, providerIncluded := true }]

/-- `handleAccountsChanged` (lines 41-47): empty list emits deactivate,
else an update carrying the first account. -/
def handleAccountsChanged (accounts : List JsValue) : List Emission :=
  if accounts.length = 0 then
    [.deactivate]
  else
    [.update { chainId := none, account := accounts.head?, providerIncluded := false }]

/-- `handleClose` (lines 49-51): emits deactivate. -/
def handleClose : List Emission := [.deactivate]

/-- `handleNetworkChanged` (lines 53-55): emits
`{chainId: networkId, provider: window.QuasarChain}`. -/
def handleNetworkChanged (networkId : JsValue) : List Emission :=
  [.update { chainId := some networkId, account := none, providerIncluded := true }]

/-- The four event registrations of `activate` (lines 62-67), performed
only when the provider exposes `on`. -/
def subscribeCalls (p : Provider) : List PCall :=
  if p.hasOn then
    [.subscribe "chainChanged", .subscribe "accountsChanged",
     .subscribe "close", .subscribe "networkChanged"]
  else []

/-- The MetaMask quirk write of `activate` (lines 69-71). -/
def metaMaskCalls (p : Provider) : List PCall :=
  if p.isMetaMask then [.setStatic "autoRefreshOnNetworkChange"] else []

/-- The result of `activate`: `{provider, ...(account ? {account} : {})}`
— the provider is always included, the account field only when the
obtained account was truthy. -/
structure ActivateResult where
  providerIncluded : Bool
  account : Option JsValue

/-- The soft attempt of getChainId styles 1-2:
`try { chainId = await send(m).then(parseSendReturn) } catch { warning }`. -/
def chainAttemptA (p : Provider) (method : String) : JsValue :=
  softValue (thenParse (p.sendAsync method))

/-- The soft attempt of getChainId style 3:
`try { chainId = parseSendReturn(send({method: 'net_version'})) } catch { warning }`. -/
def chainAttemptO (p : Provider) : JsValue :=
  softValue (thenParse (p.sendSync "net_version"))

/-- The short-circuiting static-property scan of getChainId (lines
131-135): `chainId || netVersion || networkVersion || _chainId`, each
operand read only if all earlier ones were falsy. Returns the JS value of
the `||` chain together with the property reads performed. -/
def staticScan (p : Provider) : JsValue × List PCall :=
  if p.chainId.truthy then (p.chainId, [.readStatic "chainId"])
  else if p.netVersion.truthy then
    (p.netVersion, [.readStatic "chainId", .readStatic "netVersion"])
  else if p.networkVersion.truthy then
    (p.networkVersion,
     [.readStatic "chainId", .readStatic "netVersion", .readStatic "networkVersion"])
  else
    (p.underscoreChainId,
     [.readStatic "chainId", .readStatic "netVersion", .readStatic "networkVersion",
      .readStatic "_chainId"])

/-- The Dapper branch of getChainId's static fallback (line 129):
`chainId = parseSendReturn(cachedResults.net_version)` — performed with
no enclosing try, so a failure propagates. -/
def dapperLookup (p : Provider) : Except JsErr JsValue :=
  match p.cachedResults.getProp "net_version" with
  | .error e => .error e
  | .ok v => parseSendReturn v

/-- `getChainId` (lines 99-140). Style 1: `send('eth_chainId')`; if the
parsed value is falsy, style 2: `send('net_version')`; then style 3:
synchronous `send({method: 'net_version'})` (styles 1-3 each inside
try/catch); then the static fallback: the Dapper vendor cache when
`isDapper`, else the static-property scan. -/
def getChainId (w : Window) : Except JsErr JsValue × List PCall :=
  match w.quasarChain with
  | none => (.error .noBscProvider, [])
  | some p =>
    let c1 := chainAttemptA p "eth_chainId"
    let t1 : List PCall := [.sendA "eth_chainId"]
    if c1.truthy then (.ok c1, t1)
    else
      let c2 := chainAttemptA p "net_version"
      let t2 := t1 ++ [.sendA "net_version"]
      if c2.truthy then (.ok c2, t2)
      else
        let c3 := chainAttemptO p
        let t3 := t2 ++ [.sendO "net_version"]
        if c3.truthy then (.ok c3, t3)
        else if p.isDapper then
          let t4 := t3 ++ [.readStatic "cachedResults"]
          match dapperLookup p with
          | .error e => (.error e, t4)
          | .ok v => (.ok v, t4)
        else
          let scan := staticScan p
          (.ok scan.1, t3 ++ scan.2)

/-- The soft attempt of getAccount styles 1-2:
`try { account = await X.then(r => parseSendReturn(r)[0]) } catch { warning }`. -/
def accountAttempt (r : Except JsErr JsValue) : JsValue :=
  softValue (thenParseIdx0 r)

/-- `getAccount` (lines 142-169). Style 1: `send('eth_accounts')` then
`parseSendReturn(r)[0]`, in try/catch; style 2: `enable()` likewise, in
try/catch; style 3: `account = parseSendReturn(send({method:
'eth_accounts'}))[0]` with NO enclosing try — its failure propagates. -/
def getAccount (w : Window) : Except JsErr JsValue × List PCall :=
  match w.quasarChain with
  | none => (.error .noBscProvider, [])
  | some p =>
    let a1 := accountAttempt (p.sendAsync "eth_accounts")
    let t1 : List PCall := [.sendA "eth_accounts"]
    if a1.truthy then (.ok a1, t1)
    else
      let a2 := accountAttempt p.enable
      let t2 := t1 ++ [.enable]
      if a2.truthy then (.ok a2, t2)
      else
        let t3 := t2 ++ [.sendO "eth_accounts"]
        match thenParseIdx0 (p.sendSync "eth_accounts") with
        | .error e => (.error e, t3)
        | .ok v => (.ok v, t3)

/-- The `enable()` stage of `activate` (lines 87-90):
`account = await enable().then(r => r && parseSendReturn(r)[0])`, with no
enclosing try — a rejection propagates. The returned value is then
spread into `{provider, ...(account ? {account} : {})}`. -/
def activateEnable (p : Provider) (t : List PCall) :
    Except JsErr ActivateResult × List PCall :=
  let t2 := t ++ [PCall.enable]
  match p.enable with
  | .error e => (.error e, t2)
  | .ok r =>
    if r.truthy then
      match thenParseIdx0 (.ok r) with
      | .error e => (.error e, t2)
      | .ok a => (.ok ⟨true, if a.truthy then some a else none⟩, t2)
    else
      (.ok ⟨true, none⟩, t2)

/-- The strict comparison `(error as any).code === 4001` of `activate`'s
catch clause (line 80): true exactly for the number 4001. -/
def isCode4001 : JsValue → Bool
  | .num n => n == 4001
  | _ => false

/-- `activate` (lines 57-93). Fails with `NoBscProviderError` when the
provider is absent; subscribes the four event handlers when `on` exists;
applies the MetaMask quirk; tries `send('eth_requestAccounts')` mapped
through `parseSendReturn(r)[0]` inside a try whose catch raises
`UserRejectedRequestError` when `error.code === 4001` and otherwise falls
through; when no truthy account was obtained, runs the un-guarded
`enable()` stage; finally returns `{provider, ...(account ? {account} :
{})}`. -/
def activate (w : Window) : Except JsErr ActivateResult × List PCall :=
  match w.quasarChain with
  | none => (.error .noBscProvider, [])
  | some p =>
    let t1 := subscribeCalls p ++ metaMaskCalls p ++ [PCall.sendA "eth_requestAccounts"]
    match thenParseIdx0 (p.sendAsync "eth_requestAccounts") with
    | .ok a =>
      if a.truthy then (.ok ⟨true, some a⟩, t1)
      else activateEnable p t1
    | .error e =>
      match errCode e with
      | .error e2 => (.error e2, t1)
      | .ok c =>
        if isCode4001 c then (.error .userRejected, t1)
        else activateEnable p t1

/-- `getProvider` (lines 95-97): returns `window.QuasarChain` as-is, with
no presence check and no provider interaction. -/
def getProvider (w : Window) : Except JsErr (Option Provider) × List PCall :=
  (.ok w.quasarChain, [])

/-- The JS comparison `x > 0` as it arises on a `length` read: numbers
compare directly, booleans coerce to 0/1, numeric strings coerce, and
everything else (undefined gives NaN, null gives 0) compares false. -/
def jsGtZero : JsValue → Bool
  | .num n => 0 < n
  | .bool b => b
  | .str s =>
    match asArrayIndex s with
    | some n => 0 < n
    | none => false
  | _ => false

/-- `isAuthorized` (lines 180-196): `false` when the provider is absent;
else `send('eth_accounts')` mapped through
`parseSendReturn(r).length > 0`, with any failure caught to `false`. -/
def isAuthorized (w : Window) : Except JsErr Bool × List PCall :=
  match w.quasarChain with
  | none => (.ok false, [])
  | some p =>
    let t1 : List PCall := [.sendA "eth_accounts"]
    match p.sendAsync "eth_accounts" with
    | .error _ => (.ok false, t1)
    | .ok r =>
      match parseSendReturn r with
      | .error _ => (.ok false, t1)
      | .ok v =>
        match v.getProp "length" with
        | .error _ => (.ok false, t1)
        | .ok len => (.ok (jsGtZero len), t1)

/-- One `removeListener` invocation, as the source performs it only after
the guard has established the capability: invoking it on a provider
lacking `removeListener` would throw. -/
def invokeRemoveListener (p : Provider) (event : String) : Except JsErr PCall :=
  if p.hasRemoveListener then .ok (.unsubscribe event)
  else .error (.typeError "window.QuasarChain.removeListener is not a function")

/-- `deactivate` (lines 171-178): when the provider is present and
exposes `removeListener`, unregisters the four handlers; otherwise does
nothing. The guard `window.QuasarChain && window.QuasarChain.removeListener`
is what keeps the removal calls from throwing. -/
def deactivate (w : Window) : Except JsErr Unit × List PCall :=
  match w.quasarChain with
  | none => (.ok (), [])
  | some p =>
    if p.hasRemoveListener then
      match invokeRemoveListener p "chainChanged", invokeRemoveListener p "accountsChanged",
            invokeRemoveListener p "close", invokeRemoveListener p "networkChanged" with
      | .ok c1, .ok c2, .ok c3, .ok c4 => (.ok (), [c1, c2, c3, c4])
      | .error e, _, _, _ => (.error e, [])
      | _, .error e, _, _ => (.error e, [])
      | _, _, .error e, _ => (.error e, [])
      | _, _, _, .error e => (.error e, [])
    else (.ok (), [])

/-- The empty global slot: `window.QuasarChain` is absent. -/
def emptyWindow : Window := ⟨none⟩

/-- A minimal provider: every request style fails with a soft rejection,
no capabilities, no static properties. -/
def baseProvider : Provider where
  sendAsync := fun _ => .error (.thrown (.obj [("message", .str "unsupported")]))
  sendSync := fun _ => .error (.thrown (.obj [("message", .str "unsupported")]))
  enable := .error (.thrown (.obj [("message", .str "no enable")]))
  hasOn := false
  hasRemoveListener := false
  isMetaMask := false
  isDapper := false
  chainId := .undefined
  netVersion := .undefined
  networkVersion := .undefined
  underscoreChainId := .undefined
  cachedResults := .undefined

/-- A provider whose `eth_chainId` send resolves successfully but to a
wrapper carrying the empty string, and whose `net_version` send resolves
to `{result: "77"}`. -/
def falsyChainProvider : Provider :=
  { baseProvider with
    sendAsync := fun m =>
      if m = "eth_chainId" then .ok (.obj [("result", .str "")])
      else if m = "net_version" then .ok (.obj [("result", .str "77")])
      else .error (.thrown (.obj [("message", .str "unsupported")])) }

/-- A provider whose `eth_chainId` send rejects and whose `net_version`
send resolves to `{result: "56"}`. -/
def rejectingThenNetProvider : Provider :=
  { baseProvider with
    sendAsync := fun m =>
      if m = "net_version" then .ok (.obj [("result", .str "56")])
      else .error (.thrown (.obj [("message", .str "unsupported")])) }

/-- A provider whose sends reject with the bare value `undefined` as the
rejection reason (as `Promise.reject()` produces). -/
def undefRejectProvider : Provider :=
  { baseProvider with sendAsync := fun _ => .error (.thrown .undefined) }

/-- A provider whose sends reject with an error object carrying
`code: 4001`. -/
def reject4001Provider : Provider :=
  { baseProvider with
    sendAsync := fun _ => .error (.thrown (.obj [("code", .num 4001)])) }

/-- A provider whose sends reject with `code: -32000` (not a user
rejection) and whose `enable()` also rejects. -/
def enableFailProvider : Provider :=
  { baseProvider with
    sendAsync := fun _ => .error (.thrown (.obj [("code", .num (-32000))])),
    enable := .error (.thrown (.obj [("message", .str "enable failed")])) }

/-- A provider that answers `eth_requestAccounts` and `eth_accounts` with
`["0xABC"]` and supports `on`/`removeListener`. -/
def happyProvider : Provider :=
  { baseProvider with
    sendAsync := fun m =>
      if m = "eth_requestAccounts" then .ok (.arr [.str "0xABC"])
      else if m = "eth_accounts" then .ok (.arr [.str "0xABC"])
      else .error (.thrown (.obj [("message", .str "unsupported")])),
    hasOn := true,
    hasRemoveListener := true }

/-- A Dapper-flagged provider whose vendor cache holds a chain id, and
whose static properties are populated (so that consulting them would be
observable). -/
def dapperProvider : Provider :=
  { baseProvider with
    isDapper := true,
    cachedResults := .obj [("net_version", .str "56")],
    chainId := .str "99",
    netVersion := .str "98",
    networkVersion := .str "97",
    underscoreChainId := .str "96" }

/-- A provider with `removeListener` support, for the teardown claim. -/
def listenerProvider : Provider :=
  { baseProvider with hasOn := true, hasRemoveListener := true }

/-- The trace of `activateEnable` always records exactly the `enable()`
call appended to the prefix trace. -/
theorem activateEnable_trace (p : Provider) (t : List PCall) :
    (activateEnable p t).2 = t ++ [PCall.enable] := by
  unfold activateEnable
  cases p.enable with
  | error e => rfl
  | ok r =>
    by_cases hr : r.truthy
    · simp only [hr, if_true]
      cases thenParseIdx0 (.ok r) with
      | error e => rfl
      | ok a => rfl
    · simp only [hr]
      simp

/-- Claim C3 (confirmed): with the global provider slot empty, each of
`activate`, `getChainId`, and `getAccount` fails with the provider-absent
error (`NoBscProviderError`), whereas `isAuthorized` resolves to `false`
without raising. -/
theorem claim_C3_provider_absent :
    (activate emptyWindow).1 = .error .noBscProvider ∧
    (getChainId emptyWindow).1 = .error .noBscProvider ∧
    (getAccount emptyWindow).1 = .error .noBscProvider ∧
    (isAuthorized emptyWindow).1 = .ok false :=
  ⟨rfl, rfl, rfl, rfl⟩

/-- Claim C8 (confirmed): the accountsChanged handler emits exactly a
deactivation (and no update) on the empty list, and exactly one update
carrying the first element on any non-empty list; in particular
`accountsChanged(["0xA","0xB"])` updates with account `"0xA"`. -/
theorem claim_C8_accounts_changed :
    handleAccountsChanged [] = [Emission.deactivate] ∧
    (∀ (a : JsValue) (rest : List JsValue),
      handleAccountsChanged (a :: rest) =
        [Emission.update { chainId := none, account := some a, providerIncluded := false }]) ∧
    handleAccountsChanged [.str "0xA", .str "0xB"] =
      [Emission.update { chainId := none, account := some (.str "0xA"), providerIncluded := false }] := by
  refine ⟨rfl, fun a rest => ?_, rfl⟩
  simp [handleAccountsChanged]

/-- Claim C9 (confirmed): `deactivate` never throws, whatever the provider
state; it attempts no listener removal when the provider is absent or
lacks `removeListener` (so a call before `activate` ever ran, or a second
call, is an equally harmless no-op — the operation reads no mutable state
other than the slot); and when `removeListener` is exposed it unregisters
exactly the four handlers that `activate` registers. -/
theorem claim_C9_deactivate_safe :
    ∀ (w : Window),
      (deactivate w).1 = .ok () ∧
      (w.quasarChain = none → (deactivate w).2 = []) ∧
      (∀ p, w.quasarChain = some p → p.hasRemoveListener = false → (deactivate w).2 = []) ∧
      (∀ p, w.quasarChain = some p → p.hasRemoveListener = true →
        (deactivate w).2 =
          [.unsubscribe "chainChanged", .unsubscribe "accountsChanged",
           .unsubscribe "close", .unsubscribe "networkChanged"]) := by
  intro w
  obtain ⟨_ | p⟩ := w
  · refine ⟨rfl, fun _ => rfl, ?_, ?_⟩
    · intro p h
      cases h
    · intro p h
      cases h
  · refine ⟨?_, ?_, ?_, ?_⟩
    · cases h : p.hasRemoveListener <;>
        simp [deactivate, invokeRemoveListener, h]
    · intro h
      cases h
    · rintro q ⟨rfl⟩ h
      simp [deactivate, invokeRemoveListener, h]
    · rintro q ⟨rfl⟩ h
      simp [deactivate, invokeRemoveListener, h]

/-- Witness for claim C9 at a concrete provider exposing
`removeListener`: all four handlers are unregistered. -/
theorem claim_C9_witness :
    (deactivate ⟨some listenerProvider⟩).2 =
      [.unsubscribe "chainChanged", .unsubscribe "accountsChanged",
       .unsubscribe "close", .unsubscribe "networkChanged"] :=
  (claim_C9_deactivate_safe ⟨some listenerProvider⟩).2.2.2 listenerProvider rfl rfl

/-- Claim C10 (confirmed): `getProvider` performs no presence check and
never rejects — for every state of the slot it resolves to the current
slot value with no provider interaction, in particular to `none` (JS
`undefined`) when the provider is absent. -/
theorem claim_C10_getProvider_total :
    (∀ w : Window, getProvider w = (.ok w.quasarChain, [])) ∧
    getProvider emptyWindow = (.ok none, []) :=
  ⟨fun _ => rfl, rfl⟩

/-- Counterexample to claim C6 as stated: `parseSendReturn` does not
succeed on every input — on the JS value `undefined` (and likewise
`null`) the receiver of the `hasOwnProperty` call is nullish, so the
ownership check itself throws a TypeError. -/
theorem claim_C6_counterexample :
    parseSendReturn .undefined =
      .error (.typeError "Cannot read properties of undefined (reading hasOwnProperty)") ∧
    (parseSendReturn .undefined).isOk = false :=
  ⟨rfl, rfl⟩

/-- Claim C6 (amended): for every non-nullish value, `parseSendReturn`
applied to an object owning a `result` property returns exactly that
property's value (including `result: undefined`), and applied to any
input lacking an own `result` property (including arrays) returns the
input unchanged; it is pure and never fails except on `null` and
`undefined`, where the ownership check throws. -/
theorem claim_C6_parseSendReturn :
    (∀ (fields : List (String × JsValue)) (kv : String × JsValue),
      fields.find? (fun f => f.1 == "result") = some kv →
      parseSendReturn (.obj fields) = .ok kv.2) ∧
    (∀ v : JsValue, v ≠ .undefined → v ≠ .null → v.hasOwn "result" = false →
      parseSendReturn v = .ok v) ∧
    (∀ elems : List JsValue, parseSendReturn (.arr elems) = .ok (.arr elems)) ∧
    parseSendReturn (.obj [("result", .undefined)]) = .ok .undefined := by
  refine ⟨?_, ?_, ?_, rfl⟩
  · intro fields kv hfind
    have hmem : kv ∈ fields := List.mem_of_find?_eq_some hfind
    have hp : (fun f : String × JsValue => f.1 == "result") kv = true :=
      @List.find?_some _ (fun f => f.1 == "result") kv fields hfind
    have hany : fields.any (fun f => f.1 == "result") = true :=
      List.any_eq_true.mpr ⟨kv, hmem, hp⟩
    simp only [parseSendReturn, JsValue.hasOwn, hany, if_true, JsValue.getOwn, hfind]
    rfl
  · intro v h1 h2 h3
    cases v with
    | undefined => exact absurd rfl h1
    | null => exact absurd rfl h2
    | bool b => simp [parseSendReturn, h3]
    | num n => simp [parseSendReturn, h3]
    | str s => simp [parseSendReturn, h3]
    | arr elems => simp [parseSendReturn, h3]
    | obj fields => simp [parseSendReturn, h3]
  · intro elems
    rfl

/-- Witness for claim C6 at concrete inputs: a bare string lacking a
`result` property passes through unchanged. -/
theorem claim_C6_witness :
    parseSendReturn (.str "56") = .ok (.str "56") :=
  claim_C6_parseSendReturn.2.1 (.str "56")
    (fun h => JsValue.noConfusion h) (fun h => JsValue.noConfusion h) rfl

/-- Counterexample to claim C1 as stated: a style that resolves
successfully does not always stop the chain. `falsyChainProvider`'s
`eth_chainId` send resolves successfully (to `{result: ""}`), yet the
later `net_version` style is still invoked, because the code advances on
a falsy parsed value, not only on failure. -/
theorem claim_C1_counterexample :
    falsyChainProvider.sendAsync "eth_chainId" = .ok (.obj [("result", .str "")]) ∧
    getChainId ⟨some falsyChainProvider⟩ =
      (.ok (.str "77"), [.sendA "eth_chainId", .sendA "net_version"]) ∧
    PCall.sendA "net_version" ∈ (getChainId ⟨some falsyChainProvider⟩).2 :=
  ⟨rfl, rfl, by decide⟩

/-- Claim C1 (amended): the fallback chain of `getChainId` stops at the
first style whose attempt yields a truthy parsed value; a style that
rejects, or resolves to a value that parses to a falsy chain id, advances
the chain. In particular, when the `eth_chainId` send rejects and the
`net_version` send resolves to `{result: "56"}`, `getChainId` resolves to
`"56"` and styles 3 and 4 are never invoked. -/
theorem claim_C1_first_truthy_stops :
    ∀ (p : Provider),
      ((chainAttemptA p "eth_chainId").truthy = true →
        getChainId ⟨some p⟩ =
          (.ok (chainAttemptA p "eth_chainId"), [.sendA "eth_chainId"])) ∧
      ((chainAttemptA p "eth_chainId").truthy = false →
        (chainAttemptA p "net_version").truthy = true →
        getChainId ⟨some p⟩ =
          (.ok (chainAttemptA p "net_version"),
           [.sendA "eth_chainId", .sendA "net_version"])) ∧
      (∀ e, p.sendAsync "eth_chainId" = .error e →
        p.sendAsync "net_version" = .ok (.obj [("result", .str "56")]) →
        getChainId ⟨some p⟩ =
          (.ok (.str "56"), [.sendA "eth_chainId", .sendA "net_version"])) := by
  intro p
  refine ⟨?_, ?_, ?_⟩
  · intro h1
    simp [getChainId, h1]
  · intro h1 h2
    simp [getChainId, h1, h2]
  · intro e h1 h2
    have ha1 : chainAttemptA p "eth_chainId" = .undefined := by
      simp [chainAttemptA, h1, thenParse, softValue]
    have ha2 : chainAttemptA p "net_version" = .str "56" := by
      simp [chainAttemptA, h2, thenParse, softValue]
      rfl
    simp [getChainId, ha1, ha2, JsValue.truthy]

/-- Witness for claim C1 at a concrete provider whose `eth_chainId` send
rejects and whose `net_version` send resolves to `{result: "56"}`. -/
theorem claim_C1_witness :
    getChainId ⟨some rejectingThenNetProvider⟩ =
      (.ok (.str "56"), [.sendA "eth_chainId", .sendA "net_version"]) :=
  (claim_C1_first_truthy_stops rejectingThenNetProvider).2.2
    (.thrown (.obj [("message", .str "unsupported")])) rfl rfl

/-- Counterexample to claim C2 as stated: when the `eth_requestAccounts`
send rejects with the bare value `undefined` as its reason (as
`Promise.reject()` produces) — a failure whose code is not 4001 — the
catch clause's read of `error.code` itself throws a TypeError, which
propagates out of `activate`; the chain does NOT advance to `enable()`. -/
theorem claim_C2_counterexample :
    undefRejectProvider.sendAsync "eth_requestAccounts" = .error (.thrown .undefined) ∧
    activate ⟨some undefRejectProvider⟩ =
      (.error (.typeError "Cannot read properties of undefined (reading code)"),
       [.sendA "eth_requestAccounts"]) ∧
    PCall.enable ∉ (activate ⟨some undefRejectProvider⟩).2 :=
  ⟨rfl, rfl, by decide⟩

/-- Claim C2 (amended): if the `eth_requestAccounts` send rejects with an
error whose `code` is 4001, `activate` raises the user-rejected error
immediately and `enable()` is never attempted; for any other failure of
that send whose rejection reason supports the `code` read (i.e. the
reason is not null/undefined), the chain advances to `enable()` — a
nullish reason instead makes the `code` read itself throw, and `enable()`
is again never attempted. -/
theorem claim_C2_code_4001_short_circuit :
    ∀ (p : Provider) (e : JsErr) (c : JsValue),
      p.sendAsync "eth_requestAccounts" = .error e →
      errCode e = .ok c →
      (isCode4001 c = true →
        (activate ⟨some p⟩).1 = .error .userRejected ∧
        PCall.enable ∉ (activate ⟨some p⟩).2) ∧
      (isCode4001 c = false → PCall.enable ∈ (activate ⟨some p⟩).2) := by
  intro p e c h1 h2
  have hidx : thenParseIdx0 (p.sendAsync "eth_requestAccounts") = .error e := by
    simp [thenParseIdx0, thenParse, h1]
  constructor
  · intro h3
    have hact : activate ⟨some p⟩ =
        (.error .userRejected,
         subscribeCalls p ++ metaMaskCalls p ++ [PCall.sendA "eth_requestAccounts"]) := by
      simp [activate, hidx, h2, h3]
    refine ⟨by rw [hact], ?_⟩
    rw [hact]
    cases h4 : p.hasOn <;> cases h5 : p.isMetaMask <;>
      simp [subscribeCalls, metaMaskCalls, h4, h5]
  · intro h3
    have hact : activate ⟨some p⟩ =
        activateEnable p
          (subscribeCalls p ++ metaMaskCalls p ++ [PCall.sendA "eth_requestAccounts"]) := by
      simp [activate, hidx, h2, h3]
    rw [hact, activateEnable_trace]
    simp

/-- Witness for claim C2 at a concrete provider whose send rejects with
`{code: 4001}`: activation fails user-rejected and `enable()` is never
attempted. -/
theorem claim_C2_witness :
    (activate ⟨some reject4001Provider⟩).1 = .error .userRejected ∧
    PCall.enable ∉ (activate ⟨some reject4001Provider⟩).2 :=
  (claim_C2_code_4001_short_circuit reject4001Provider
    (.thrown (.obj [("code", .num 4001)])) (.num 4001) rfl rfl).1 rfl

/-- Counterexample to claim C4 as stated: on a provider where every
getAccount style fails (the `eth_accounts` send and `enable()` reject,
and the synchronous object-style send throws), `getAccount` does NOT
return an empty result — the final style's failure propagates to the
caller, because that style alone has no enclosing try/catch. -/
theorem claim_C4_counterexample :
    baseProvider.sendAsync "eth_accounts" =
      .error (.thrown (.obj [("message", .str "unsupported")])) ∧
    baseProvider.enable = .error (.thrown (.obj [("message", .str "no enable")])) ∧
    baseProvider.sendSync "eth_accounts" =
      .error (.thrown (.obj [("message", .str "unsupported")])) ∧
    (getAccount ⟨some baseProvider⟩).1 =
      .error (.thrown (.obj [("message", .str "unsupported")])) :=
  ⟨rfl, rfl, rfl, rfl⟩

/-- Claim C4 (amended): soft failures in the styles wrapped in try/catch
are never raised. `getChainId` always resolves for a non-Dapper provider,
however the styles fail, and resolves for a Dapper provider whenever the
vendor-cache lookup does not throw; `getAccount` resolves whenever its
final object-style send expression does not throw — that un-guarded final
expression (and the Dapper cache lookup) are the only points where a
failure can propagate. -/
theorem claim_C4_soft_failures :
    (∀ p : Provider, p.isDapper = false →
      (getChainId ⟨some p⟩).1.isOk = true) ∧
    (∀ (p : Provider) (v : JsValue), dapperLookup p = .ok v →
      (getChainId ⟨some p⟩).1.isOk = true) ∧
    (∀ (p : Provider) (v : JsValue), thenParseIdx0 (p.sendSync "eth_accounts") = .ok v →
      (getAccount ⟨some p⟩).1.isOk = true) := by
  refine ⟨?_, ?_, ?_⟩
  · intro p h
    cases h1 : (chainAttemptA p "eth_chainId").truthy with
    | true => simp [getChainId, h1, Except.isOk, Except.toBool]
    | false =>
      cases h2 : (chainAttemptA p "net_version").truthy with
      | true => simp [getChainId, h1, h2, Except.isOk, Except.toBool]
      | false =>
        cases h3 : (chainAttemptO p).truthy with
        | true => simp [getChainId, h1, h2, h3, Except.isOk, Except.toBool]
        | false => simp [getChainId, h1, h2, h3, h, Except.isOk, Except.toBool]
  · intro p v hv
    cases h1 : (chainAttemptA p "eth_chainId").truthy with
    | true => simp [getChainId, h1, Except.isOk, Except.toBool]
    | false =>
      cases h2 : (chainAttemptA p "net_version").truthy with
      | true => simp [getChainId, h1, h2, Except.isOk, Except.toBool]
      | false =>
        cases h3 : (chainAttemptO p).truthy with
        | true => simp [getChainId, h1, h2, h3, Except.isOk, Except.toBool]
        | false =>
          cases hd : p.isDapper with
          | true => simp [getChainId, h1, h2, h3, hd, hv, Except.isOk, Except.toBool]
          | false => simp [getChainId, h1, h2, h3, hd, Except.isOk, Except.toBool]
  · intro p v hv
    cases h1 : (accountAttempt (p.sendAsync "eth_accounts")).truthy with
    | true => simp [getAccount, h1, Except.isOk, Except.toBool]
    | false =>
      cases h2 : (accountAttempt p.enable).truthy with
      | true => simp [getAccount, h1, h2, Except.isOk, Except.toBool]
      | false => simp [getAccount, h1, h2, hv, Except.isOk, Except.toBool]

/-- Witness for claim C4 at a concrete provider: on a non-Dapper provider
all of whose request styles fail, `getChainId` still resolves. -/
theorem claim_C4_witness :
    (getChainId ⟨some baseProvider⟩).1.isOk = true :=
  claim_C4_soft_failures.1 baseProvider rfl

/-- Counterexample to claim C5 as stated: a provider is present and
there is no user rejection (the send rejects with `code: -32000`), yet
`activate` does not resolve — the chain advances to `enable()`, whose
rejection propagates to the caller as an unclassified error. Provider
absence and user rejection are therefore not the only failures. -/
theorem claim_C5_counterexample :
    enableFailProvider.sendAsync "eth_requestAccounts" =
      .error (.thrown (.obj [("code", .num (-32000))])) ∧
    (activate ⟨some enableFailProvider⟩).1 =
      .error (.thrown (.obj [("message", .str "enable failed")])) :=
  ⟨rfl, rfl⟩

/-- Claim C5 (amended): when the `eth_requestAccounts` attempt yields a
truthy account, `activate` resolves to `{provider, account}`; when it
fails softly (a non-4001 code readable from the reason) and `enable()`
rejects, that rejection propagates — besides provider absence and user
rejection, `activate` can also fail with the `enable()` stage's failure;
and when the chain completes without a truthy account (e.g. `enable()`
resolves to an empty list), `activate` resolves with the account field
omitted. -/
theorem claim_C5_activate_result :
    ∀ (p : Provider),
      (∀ a, thenParseIdx0 (p.sendAsync "eth_requestAccounts") = .ok a → a.truthy = true →
        (activate ⟨some p⟩).1 = .ok ⟨true, some a⟩) ∧
      (∀ e c, p.sendAsync "eth_requestAccounts" = .error e → errCode e = .ok c →
        isCode4001 c = false → ∀ e2, p.enable = .error e2 →
        (activate ⟨some p⟩).1 = .error e2) ∧
      (∀ a, thenParseIdx0 (p.sendAsync "eth_requestAccounts") = .ok a → a.truthy = false →
        p.enable = .ok (.arr []) →
        (activate ⟨some p⟩).1 = .ok ⟨true, none⟩) := by
  intro p
  refine ⟨?_, ?_, ?_⟩
  · intro a ha hat
    simp [activate, ha, hat]
  · intro e c h1 h2 h3 e2 h4
    have hidx : thenParseIdx0 (p.sendAsync "eth_requestAccounts") = .error e := by
      simp [thenParseIdx0, thenParse, h1]
    simp [activate, hidx, h2, h3, activateEnable, h4]
  · intro a ha hat h4
    have hts : thenParseIdx0 (Except.ok (JsValue.arr [])) = Except.ok JsValue.undefined := rfl
    have htr : (JsValue.arr []).truthy = true := rfl
    have htu : JsValue.undefined.truthy = false := rfl
    simp [activate, ha, hat, activateEnable, h4, hts, htr, htu]

/-- Witness for claim C5 at a concrete provider answering
`eth_requestAccounts` with `["0xABC"]`: activation resolves to
`{provider, account: "0xABC"}`. -/
theorem claim_C5_witness :
    (activate ⟨some happyProvider⟩).1 = .ok ⟨true, some (.str "0xABC")⟩ :=
  (claim_C5_activate_result happyProvider).1 (.str "0xABC") rfl rfl

/-- The static-property scan yields the first truthy value among
`chainId`, `netVersion`, `networkVersion`, `_chainId`, in that order. -/
theorem staticScan_first_truthy (p : Provider) (v : JsValue) :
    [p.chainId, p.netVersion, p.networkVersion, p.underscoreChainId].find? JsValue.truthy
      = some v →
    (staticScan p).1 = v := by
  intro hv
  cases hc : p.chainId.truthy with
  | true =>
    simp [List.find?, hc] at hv
    subst hv
    simp [staticScan, hc]
  | false =>
    cases hn : p.netVersion.truthy with
    | true =>
      simp [List.find?, hc, hn] at hv
      subst hv
      simp [staticScan, hc, hn]
    | false =>
      cases hw : p.networkVersion.truthy with
      | true =>
        simp [List.find?, hc, hn, hw] at hv
        subst hv
        simp [staticScan, hc, hn, hw]
      | false =>
        cases hu : p.underscoreChainId.truthy with
        | true =>
          simp [List.find?, hc, hn, hw, hu] at hv
          subst hv
          simp [staticScan, hc, hn, hw]
        | false =>
          simp [List.find?, hc, hn, hw, hu] at hv

/-- Claim C7 (confirmed): in getChainId's static fallback (reached when
all three request styles produced falsy values), a Dapper-flagged
provider takes its chain id from the vendor cache
(`cachedResults.net_version`) and the generic static-property scan is
never consulted (no static property other than `cachedResults` is read);
otherwise the result is the first truthy value among the provider's
`chainId`, `netVersion`, `networkVersion`, `_chainId` properties, in that
order. -/
theorem claim_C7_static_fallback :
    ∀ (p : Provider),
      (chainAttemptA p "eth_chainId").truthy = false →
      (chainAttemptA p "net_version").truthy = false →
      (chainAttemptO p).truthy = false →
      (p.isDapper = true →
        (∀ v, dapperLookup p = .ok v → (getChainId ⟨some p⟩).1 = .ok v) ∧
        (∀ n, PCall.readStatic n ∈ (getChainId ⟨some p⟩).2 → n = "cachedResults")) ∧
      (p.isDapper = false →
        ∀ v, [p.chainId, p.netVersion, p.networkVersion, p.underscoreChainId].find?
               JsValue.truthy = some v →
          (getChainId ⟨some p⟩).1 = .ok v) := by
  intro p h1 h2 h3
  constructor
  · intro hd
    constructor
    · intro v hv
      simp [getChainId, h1, h2, h3, hd, hv]
    · intro n hn
      cases hv : dapperLookup p with
      | ok v =>
        simp [getChainId, h1, h2, h3, hd, hv] at hn
        exact hn
      | error e =>
        simp [getChainId, h1, h2, h3, hd, hv] at hn
        exact hn
  · intro hd v hv
    simp [getChainId, h1, h2, h3, hd, staticScan_first_truthy p v hv]

/-- Witness for claim C7 at a concrete Dapper provider with populated
static properties: the chain id comes from the vendor cache, not from the
`chainId` static property. -/
theorem claim_C7_witness :
    (getChainId ⟨some dapperProvider⟩).1 = .ok (.str "56") :=
  ((claim_C7_static_fallback dapperProvider rfl rfl rfl).1 rfl).1 (.str "56") rfl
